import Mathlib

/-!
Verification development for the IPTV tuning tester
(src/dispatcharr_test.py, src/iptv_tuning_tester.py).

The Python source is shallowly embedded: pure fragments become Lean
functions, time is modelled in integer milliseconds (wall-clock marks)
or rationals (epoch timestamps for the log correlator), and the
behaviour of the external media player / ffprobe backend / log stream
is supplied as an explicit environment value.
-/

/-! ## Configuration constants (dispatcharr_test.py lines 62-66) -/

/-- REQUEST_TIMEOUT = 15 seconds, expressed in milliseconds. -/
def REQUEST_TIMEOUT_MS : Nat := 15000

/-- MIN_PLAYBACK_TIME_MS = 200. -/
def MIN_PLAYBACK_TIME_MS : Int := 200

/-- max_retries = 3 in get_stream_info_ffprobe. -/
def FFPROBE_MAX_RETRIES : Nat := 3

/-- retry_delay = 2 seconds between ffprobe attempts. -/
def FFPROBE_RETRY_DELAY_S : Nat := 2

/-! ## Python string primitives over List Char

Channel names, codec names and log lines are ASCII or small Unicode
strings; Python str.upper/str.lower agree with Char.toUpper/Char.toLower
on them.  All operations are written over List Char so that the kernel
can evaluate them on concrete inputs. -/

/-- Python s.upper() (ASCII / simple-case characters). -/
def pyUpper (s : String) : String := ⟨s.toList.map Char.toUpper⟩

/-- Python s.lower() (ASCII / simple-case characters). -/
def pyLower (s : String) : String := ⟨s.toList.map Char.toLower⟩

/-- Python s.split(sep) for a one-character separator: a list of the
(possibly empty) pieces between occurrences of the separator. -/
def pySplitOn (sep : Char) : List Char → List (List Char)
  | [] => [[]]
  | c :: rest =>
      match pySplitOn sep rest with
      | [] => [[c]]
      | h :: t => if c = sep then [] :: h :: t else (c :: h) :: t

/-- Python sep.join(parts). -/
def pyJoinWith (sep : List Char) : List (List Char) → List Char
  | [] => []
  | [x] => x
  | x :: y :: t => x ++ sep ++ pyJoinWith sep (y :: t)

/-- Fuel-driven body of Python str.replace; the fuel is an upper bound
on the number of characters still to be consumed, so structural
recursion on it lets the kernel evaluate the definition. -/
def pyReplaceGo (needle repl : List Char) : List Char → Nat → List Char
  | l, 0 => l
  | [], _ + 1 => []
  | c :: rest, fuel + 1 =>
      if !needle.isEmpty && needle.isPrefixOf (c :: rest) then
        repl ++ pyReplaceGo needle repl ((c :: rest).drop needle.length) fuel
      else
        c :: pyReplaceGo needle repl rest fuel

/-- Python haystack.replace(needle, repl): replace every non-overlapping
occurrence, scanning left to right (an empty needle leaves the string
unchanged; the source only ever replaces non-empty needles).  Each step
consumes at least one character, so the length of the input is enough
fuel. -/
def pyReplaceList (needle repl : List Char) (l : List Char) : List Char :=
  pyReplaceGo needle repl l l.length

/-- Python haystack.replace(needle, repl) on String. -/
def pyReplace (s needle repl : String) : String :=
  ⟨pyReplaceList needle.toList repl.toList s.toList⟩

/-- Python needle in haystack (substring containment). -/
def pyContainsList (needle : List Char) : List Char → Bool
  | [] => needle.isEmpty
  | c :: rest => needle.isPrefixOf (c :: rest) || pyContainsList needle rest

/-- Python needle in haystack on String. -/
def pyContains (haystack needle : String) : Bool :=
  pyContainsList needle.toList haystack.toList

/-! ## PlaybackProbe: get_stream_info_ffprobe (dispatcharr_test.py 109-146) -/

/-- The fields of a successful ffmpeg.probe result that the source
reads: the container format_name and the codec_name of the first
video / audio stream (absent when no such stream exists). -/
structure FfprobeData where
  format_name : String
  video_codec : Option String
  audio_codec : Option String
  deriving DecidableEq

/-- Lines 120-130: build the info string from one successful probe.
Container: ", ".join(format_name.split(',')) then .upper();
video / audio codec: .upper() with N/A default, and the aliasing
replacements H264→AVC, H265→HEVC applied to the video field. -/
def buildInfoString (d : FfprobeData) : String :=
  let input := pyUpper ⟨pyJoinWith [',', ' '] (pySplitOn ',' d.format_name.toList)⟩
  let video0 := match d.video_codec with
    | some c => pyUpper c
    | none => "N/A"
  let video := pyReplace (pyReplace video0 "H264" "AVC") "H265" "HEVC"
  let audio := match d.audio_codec with
    | some c => pyUpper c
    | none => "N/A"
  "Input: " ++ input ++ "<br>Video: " ++ video ++ "<br>Audio: " ++ audio

/-- The observable outcome of one get_stream_info_ffprobe call:
the returned pair (summary, retry_needed) together with how many
attempts were issued and how many 2-second inter-attempt sleeps ran. -/
structure ProbeRun where
  summary : String
  retryOccurred : Bool
  attemptsMade : Nat
  sleepsTaken : Nat
  deriving DecidableEq

/-- One backend behaviour: what ffmpeg.probe does on attempt i
(both ffmpeg.Error and any other exception are caught alike by the
source, so a single error string models them). -/
def ProbeBackend := Nat → Except String FfprobeData

/-- The retry loop of get_stream_info_ffprobe: fuel counts the
remaining iterations of `for attempt in range(max_retries)`; a sleep
runs only when another attempt follows (attempt < max_retries - 1). -/
def probeAttempts (backend : ProbeBackend) : Nat → Nat → Nat → ProbeRun
  | attempt, sleeps, 0 =>
      { summary := "Info: Probe Failed", retryOccurred := false,
        attemptsMade := attempt, sleepsTaken := sleeps }
  | attempt, sleeps, fuel + 1 =>
      match backend attempt with
      | .ok d =>
          { summary := buildInfoString d, retryOccurred := decide (0 < attempt),
            attemptsMade := attempt + 1, sleepsTaken := sleeps }
      | .error _ =>
          probeAttempts backend (attempt + 1)
            (if 0 < fuel then sleeps + 1 else sleeps) fuel

/-- get_stream_info_ffprobe: up to FFPROBE_MAX_RETRIES attempts; every
exception from an attempt is caught, so the function always returns a
value and never raises. -/
def get_stream_info_ffprobe (backend : ProbeBackend) : ProbeRun :=
  probeAttempts backend 0 0 FFPROBE_MAX_RETRIES

/-- Whether attempt i of the backend succeeds. -/
def probeOk (e : Except String FfprobeData) : Bool :=
  match e with
  | .ok _ => true
  | .error _ => false

/-- Index of the first successful attempt among attempts
start, start+1, ... within the given fuel. -/
def firstOkFrom (backend : ProbeBackend) : Nat → Nat → Option Nat
  | _, 0 => none
  | i, fuel + 1 => if probeOk (backend i) then some i else firstOkFrom backend (i + 1) fuel

/-- Index of the first successful attempt among the three tried ones. -/
def firstOk3 (backend : ProbeBackend) : Option Nat := firstOkFrom backend 0 FFPROBE_MAX_RETRIES

example : pyUpper "mpegts" = "MPEGTS" := by decide
example : (buildInfoString ⟨"mpegts", some "h264", some "aac"⟩)
    = "Input: MPEGTS<br>Video: AVC<br>Audio: AAC" := by decide
example : (buildInfoString ⟨"mov,mp4,m4a", some "h265", none⟩)
    = "Input: MOV, MP4, M4A<br>Video: HEVC<br>Audio: N/A" := by decide

/-! ## TuningStateMachine: measure_tune_time_with_vlc
(dispatcharr_test.py 279-310)

Wall-clock marks taken with time.perf_counter are modelled in integer
milliseconds relative to the start mark taken just before player.play().
The environment describes the asynchronous behaviour of the player for
this one attempt: when (if ever) the MediaPlayerPlaying event fires,
when (if ever) the MediaPlayerEncounteredError event fires, the value
of player.get_time() as a function of the current mark, and whether the
video_take_snapshot call raises. -/

structure TuneEnv where
  /-- Milliseconds after the start mark at which playing_event is set
  (none: it never fires). -/
  playingAt : Option Nat
  /-- Milliseconds after the start mark at which error_event is set
  (none: it never fires). -/
  errorAt : Option Nat
  /-- player.get_time() (playback position in ms, -1 while undefined)
  observed at a given mark. -/
  posAt : Nat → Int
  /-- Whether player.video_take_snapshot raises an exception. -/
  snapshotRaises : Bool

/-- Line 289: playback_started = playing_event.wait(timeout=REQUEST_TIMEOUT).
Returns the mark at which the wait is released by the playing signal,
or none when the deadline expires first. -/
def waitPlayingResult (env : TuneEnv) : Option Nat :=
  match env.playingAt with
  | some t => if t ≤ REQUEST_TIMEOUT_MS then some t else none
  | none => none

/-- Line 309: player_state.error_event.is_set(), evaluated after the
wait has expired; an error signal fired during the 15-second wait is
visible there. -/
def errorObserved (env : TuneEnv) : Bool :=
  match env.errorAt with
  | some t => decide (t ≤ REQUEST_TIMEOUT_MS)
  | none => false

/-- Lines 292-296: the stabilization loop.  Starting at the mark where
the playing signal arrived, poll player.get_time(); while it is below
MIN_PLAYBACK_TIME_MS sleep 50 ms, and break once more than 2 s have
passed since the loop started.  Returns the mark at which the loop
exits.  The 2-second ceiling releases the loop after at most 41 polls,
so any fuel of at least 42 iterations is exact; the fallback arm is
never reached with the fuel used below. -/
def stabilizeGo (pos : Nat → Int) (start : Nat) : Nat → Nat → Nat
  | s, 0 => s
  | s, fuel + 1 =>
      if MIN_PLAYBACK_TIME_MS ≤ pos s then s
      else
        let s2 := s + 50
        if 2000 < s2 - start then s2
        else stabilizeGo pos start s2 fuel

/-- Mark at which the stabilization loop exits when entered at mark
start. -/
def stabilizeEnd (env : TuneEnv) (start : Nat) : Nat :=
  stabilizeGo env.posAt start start 50

/-- The player-handle operations the function performs, in order.
(set_media loads the prepared media; clearMedia is set_media(None).) -/
inductive PlayerAction
  | setMedia
  | play
  | snapshot
  | clearMedia
  | stop
  deriving DecidableEq

/-- The value measure_tune_time_with_vlc returns: on the success path
the pair (end_time - start_time, thumbnail_path); on the failure path
(None, status).  Both components of the Python pair are carried. -/
inductive TuneOutcome
  | success (elapsedMs : Nat) (thumb : Option String)
  | failure (status : String)
  deriving DecidableEq

/-- One complete call: the returned value (none when an exception from
the player API escaped the call), and the ordered trace of player
operations that ran before the call ended. -/
structure MeasureRun where
  result : Option TuneOutcome
  trace : List PlayerAction
  /-- Mark at which the stabilization loop exited (success branch only). -/
  stabilizedAt : Option Nat
  deriving DecidableEq

/-- measure_tune_time_with_vlc (dispatcharr_test.py 279-310).  The
elapsed time returned on success is end_time - start_time where
end_time is taken immediately after playing_event.wait returns (line
291), i.e. at the mark of the playing signal; the stabilization loop
and the optional snapshot run after that mark.  There is no
try/finally inside the function, so an exception from
video_take_snapshot escapes before player.stop() runs. -/
def measure_tune_time_with_vlc (env : TuneEnv) (takeThumbnail : Bool)
    (thumbPath : String) : MeasureRun :=
  match waitPlayingResult env with
  | some t =>
      let stab := stabilizeEnd env t
      if takeThumbnail then
        if env.snapshotRaises then
          { result := none,
            trace := [.setMedia, .play, .snapshot],
            stabilizedAt := some stab }
        else
          { result := some (.success t (some thumbPath)),
            trace := [.setMedia, .play, .snapshot, .stop],
            stabilizedAt := some stab }
      else
        { result := some (.success t none),
          trace := [.setMedia, .play, .stop],
          stabilizedAt := some stab }
  | none =>
      { result := some (.failure (if errorObserved env then "Stream Error" else "Timed out")),
        trace := [.setMedia, .play, .clearMedia, .stop],
        stabilizedAt := none }

/-- The first component of the returned pair (tune_time). -/
def tuneTimeOf : TuneOutcome → Option Nat
  | .success e _ => some e
  | .failure _ => none

/-- The second component of the returned pair: the thumbnail path on
success, the status string on failure (the same Python variable
receives both). -/
def tuneSecondOf : TuneOutcome → Option String
  | .success _ th => th
  | .failure s => some s

example :
    (measure_tune_time_with_vlc ⟨none, some 3000, fun _ => 0, false⟩ false "p").result
      = some (.failure "Stream Error") := by decide
example :
    (measure_tune_time_with_vlc ⟨none, none, fun _ => 0, false⟩ true "p").result
      = some (.failure "Timed out") := by decide
example :
    (measure_tune_time_with_vlc ⟨some 800, none, fun s => if s < 850 then 0 else 300, false⟩ false "p")
      = { result := some (.success 800 none),
          trace := [.setMedia, .play, .stop],
          stabilizedAt := some 850 } := by decide

/-! ## LogCorrelator query (dispatcharr_test.py 364-372)

Log lines are appended by the tailer thread as (time.time(), text)
pairs; epoch timestamps are modelled as rationals.  The query below is
the body of the debug_mode block in run_test_session: under the lock it
scans the buffer and keeps every line whose arrival timestamp lies in
the inclusive window and whose lowercased text contains one of the
fixed keywords. -/

/-- The fixed keyword set of line 369. -/
def ERROR_KEYWORDS : List String := ["error", "exception", "failed", "traceback"]

/-- any(err in log_line.lower() for err in [...]). -/
def lineMatches (line : String) : Bool :=
  ERROR_KEYWORDS.any (fun k => pyContains (pyLower line) k)

/-- The correlation query over the buffered entries for the window
[tStart, tEnd] (both endpoints inclusive, lines 368-370). -/
def correlateLogs (entries : List (Rat × String)) (tStart tEnd : Rat) : List String :=
  (entries.filter
    (fun e => decide (tStart ≤ e.1) && decide (e.1 ≤ tEnd) && lineMatches e.2)).map
    (fun e => e.2)

example : correlateLogs [((10 : Rat), "boot ERROR found")] 9 11 = ["boot ERROR found"] := by decide
example : correlateLogs [((10 : Rat), "boot ERROR found")] 12 15 = [] := by decide
example : correlateLogs [((10 : Rat), "all fine")] 9 11 = [] := by decide

/-! ## Base channel names

dispatcharr_test.py line 333 computes the matrix row key with
re.sub applied to the channel name, removing from the first position
where optional whitespace followed by the superscript marker ᴿᴬᵂ
matches through the end of the name (channel names come from one line
of an M3U document, so the .* of the pattern reaches the end of the
string).  iptv_tuning_tester.py line 240 instead removes every
occurrence of the literal " ᴿᴬᵂ". -/

/-- The superscript variant marker used by the source. -/
def rawMarker : List Char := ['ᴿ', 'ᴬ', 'ᵂ']

/-- Whether the regex \s*ᴿᴬᵂ matches at the head of the list: some run
of whitespace characters followed by the marker.  Because the marker
does not start with whitespace, backtracking of the greedy \s* is
equivalent to dropping the maximal whitespace run. -/
def rawMatchAt (l : List Char) : Bool :=
  rawMarker.isPrefixOf (l.dropWhile Char.isWhitespace)

/-- re.sub(r'\s*ᴿᴬᵂ.*', '', name) on a single-line name: keep scanning
until the pattern matches, then drop the rest of the string. -/
def stripRawList : List Char → List Char
  | [] => []
  | c :: rest => if rawMatchAt (c :: rest) then [] else c :: stripRawList rest

/-- The dispatcharr_test.py row key (line 333). -/
def dispBaseName (name : String) : String := ⟨stripRawList name.toList⟩

/-- The iptv_tuning_tester.py row key (line 240):
channel name with every occurrence of " ᴿᴬᵂ" removed. -/
def iptvBaseName (name : String) : String := pyReplace name " ᴿᴬᵂ" ""

example : dispBaseName "NPO1 ᴿᴬᵂ" = "NPO1" := by decide
example : iptvBaseName "NPO1 ᴿᴬᵂ" = "NPO1" := by decide
example : dispBaseName "NPO1" = "NPO1" := by decide

/-! ## ProfileTestOrchestrator, per-channel loop: run_test_session
(dispatcharr_test.py 331-389)

Each channel brings the player behaviour for its tuning attempt, the
backend behaviour for its probe, its thumbnail file name, and the
wall-clock window [testStart, testEnd] recorded around its test.  The
Docker log buffer is the list of entries visible during the session. -/

structure ChannelRun where
  name : String
  env : TuneEnv
  thumbPath : String
  probeBackend : ProbeBackend
  testStart : Rat
  testEnd : Rat

/-- One value of the results dict (lines 374-380). -/
structure ResultRow where
  time : Option Nat
  thumb : Option String
  info : String
  info_retry : Bool
  debug : String
  deriving DecidableEq

/-- Python f-string rendering of the variable that holds the second
component of the measure result (a string on the failure path; it is
only interpolated on that path, where it is never None). -/
def pyStr (o : Option String) : String :=
  match o with
  | some s => s
  | none => "None"

/-- "<br>".join(debug_messages). -/
def joinBr (msgs : List String) : String := ⟨pyJoinWith "<br>".toList (msgs.map String.toList)⟩

/-- Lines 348-353: stream_info is the probe summary when probing is
enabled (the probe runs after a 1-second settle delay regardless of the
tuning outcome), "N/A" otherwise. -/
def streamInfoFor (probeEnabled : Bool) (ch : ChannelRun) : String :=
  if probeEnabled then (get_stream_info_ffprobe ch.probeBackend).summary else "N/A"

/-- Lines 348-353: retry_needed from the probe, false when probing is
disabled. -/
def retryFor (probeEnabled : Bool) (ch : ChannelRun) : Bool :=
  if probeEnabled then (get_stream_info_ffprobe ch.probeBackend).retryOccurred else false

/-- Lines 347-372: the accumulated debug_messages for one channel, in
append order: the probe marker (when its summary signals a failure),
the playback-failure marker, then the correlated Docker lines. -/
def debugMessagesFor (probeEnabled debugMode : Bool) (entries : List (Rat × String))
    (ch : ChannelRun) (outcome : TuneOutcome) : List String :=
  let stream_info := streamInfoFor probeEnabled ch
  let msgs1 : List String :=
    if probeEnabled && (pyContains stream_info "Failed" || pyContains stream_info "Error") then
      ["FFprobe: " ++ stream_info]
    else []
  let msgs2 :=
    if (tuneTimeOf outcome).isNone then msgs1 ++ ["VLC: " ++ pyStr (tuneSecondOf outcome)]
    else msgs1
  let correlated := if debugMode then correlateLogs entries ch.testStart ch.testEnd else []
  if debugMode && !correlated.isEmpty then msgs2 ++ ["Docker: " ++ joinBr correlated]
  else msgs2

/-- The body of the channel loop after measure_tune_time_with_vlc has
returned outcome: probe (when enabled), debug-message accumulation,
log correlation (when debug_mode), and the stored row (lines 347-380). -/
def rowForChannel (probeEnabled debugMode : Bool) (entries : List (Rat × String))
    (ch : ChannelRun) (outcome : TuneOutcome) : ResultRow :=
  { time := tuneTimeOf outcome
  , thumb := if (tuneTimeOf outcome).isSome then tuneSecondOf outcome else none
  , info :=
      if (tuneTimeOf outcome).isNone then
        pyStr (tuneSecondOf outcome) ++ "<br>" ++ streamInfoFor probeEnabled ch
      else streamInfoFor probeEnabled ch
  , info_retry := retryFor probeEnabled ch
  , debug := joinBr (debugMessagesFor probeEnabled debugMode entries ch outcome) }

/-- Python dict assignment results[key] = row: overwrite in place when
the key exists, append otherwise (insertion order preserved). -/
def dictInsert (m : List (String × ResultRow)) (k : String) (v : ResultRow) :
    List (String × ResultRow) :=
  if m.any (fun p => p.1 == k) then
    m.map (fun p => if p.1 == k then (k, v) else p)
  else m ++ [(k, v)]

/-- Lookup in the results dict. -/
def lookupRow (m : List (String × ResultRow)) (k : String) : Option ResultRow :=
  (m.find? (fun p => p.1 == k)).map (fun p => p.2)

/-- The channel loop of run_test_session.  Per-channel failures are
plain return values and the loop simply records them and continues; an
exception escaping measure_tune_time_with_vlc (modelled by a none
result) propagates out of the loop, which the Except error models. -/
def sessionGo (thumbnailMode probeEnabled debugMode : Bool) (entries : List (Rat × String)) :
    List ChannelRun → List (String × ResultRow) → Except Unit (List (String × ResultRow))
  | [], acc => .ok acc
  | ch :: rest, acc =>
      match (measure_tune_time_with_vlc ch.env thumbnailMode ch.thumbPath).result with
      | none => .error ()
      | some outcome =>
          sessionGo thumbnailMode probeEnabled debugMode entries rest
            (dictInsert acc (dispBaseName ch.name)
              (rowForChannel probeEnabled debugMode entries ch outcome))

/-- run_test_session restricted to its channel loop (lines 331-389);
the VLC instance/tk window set-up around it does not touch the rows. -/
def run_test_session (channels : List ChannelRun)
    (thumbnailMode probeEnabled debugMode : Bool)
    (entries : List (Rat × String)) : Except Unit (List (String × ResultRow)) :=
  sessionGo thumbnailMode probeEnabled debugMode entries channels []

/-! ## main, multi-profile loop and restoration (dispatcharr_test.py 617-636)

For each selected profile the loop: calls set_active_profile (on
failure: continue), then fetches channels and runs the session, where
an exception would propagate out of the loop.  After the loop — in
straight-line code, with no try/finally guarding it — the original
profile is restored once, guarded by the truthiness of
active_profile_uuid. -/

inductive ProfileStep
  | switchFail
  | runOk
  | runRaises
  deriving DecidableEq

/-- The profile loop: ok when every iteration either completes or is
skipped by the continue, error as soon as an iteration raises. -/
def profileLoopGo : List ProfileStep → Except Unit Unit
  | [] => .ok ()
  | .switchFail :: rest => profileLoopGo rest
  | .runOk :: rest => profileLoopGo rest
  | .runRaises :: _ => .error ()

/-- Observable restoration behaviour of main's profile sequence. -/
structure MainRun where
  /-- Whether the loop completed without an exception escaping. -/
  completed : Bool
  /-- How many times set_active_profile(original uuid) ran. -/
  restores : Nat
  deriving DecidableEq

/-- Lines 617-636: run the loop; only if control reaches the code after
the loop is the original profile restored (once, when the saved uuid is
truthy).  An escaping exception skips the restoration entirely. -/
def mainProfileSequence (steps : List ProfileStep) (originalActive : Option String) : MainRun :=
  match profileLoopGo steps with
  | .ok () => { completed := true, restores := if originalActive.isSome then 1 else 0 }
  | .error () => { completed := false, restores := 0 }

example : mainProfileSequence [.switchFail, .runOk] (some "uuid") = ⟨true, 1⟩ := by decide
example : mainProfileSequence [.runOk, .runRaises, .runOk] (some "uuid") = ⟨false, 0⟩ := by decide

/-! ## Theorems -/

/-- C3: the stream probe makes at most 3 attempts with one fixed
2-second sleep between consecutive attempts (never after the last);
retryOccurred is true iff the first successful attempt is a later one
than the first; when all 3 attempts fail it returns the sentinel
failure summary with retryOccurred false (the embedding is a total
function: every per-attempt exception is caught, none is re-raised,
so a probe failure never aborts the per-channel test). -/
theorem probe_retry_policy (backend : ProbeBackend) :
    (get_stream_info_ffprobe backend).attemptsMade ≤ FFPROBE_MAX_RETRIES
    ∧ ((get_stream_info_ffprobe backend).retryOccurred = true ↔
        ∃ i, firstOk3 backend = some i ∧ 0 < i)
    ∧ (firstOk3 backend = none →
        get_stream_info_ffprobe backend
          = { summary := "Info: Probe Failed", retryOccurred := false,
              attemptsMade := 3, sleepsTaken := 2 })
    ∧ (∀ i, firstOk3 backend = some i →
        (get_stream_info_ffprobe backend).sleepsTaken = i
        ∧ (get_stream_info_ffprobe backend).attemptsMade = i + 1) := by
  rcases h0 : backend 0 with e0 | d0 <;> rcases h1 : backend 1 with e1 | d1 <;>
    rcases h2 : backend 2 with e2 | d2 <;>
      simp [get_stream_info_ffprobe, probeAttempts, firstOk3, firstOkFrom, probeOk,
        FFPROBE_MAX_RETRIES, h0, h1, h2]

/-- Witness for C3: a backend that fails twice and then succeeds has
retryOccurred = true. -/
theorem probe_retry_policy_witness :
    (get_stream_info_ffprobe
        (fun i => if i < 2 then .error "boom" else .ok ⟨"mpegts", some "h264", some "aac"⟩)).retryOccurred
      = true :=
  (probe_retry_policy
      (fun i => if i < 2 then .error "boom" else .ok ⟨"mpegts", some "h264", some "aac"⟩)).2.1.mpr
    ⟨2, by decide, by decide⟩

/-- Counterexample to C4 as stated: for a backend returning container
"mpegts", video "h264", audio "aac" on the first attempt, the summary
is not the comma-separated string the claim names — the three fields
are joined with the literal "<br>" separator. -/
theorem probe_summary_counterexample :
    (get_stream_info_ffprobe (fun _ => .ok ⟨"mpegts", some "h264", some "aac"⟩)).summary
      ≠ "Input: MPEGTS, Video: AVC, Audio: AAC" := by decide

/-- C4 amended: the summary is derived by uppercasing the container
name with comma-delimited aliases flattened into one string (", "
joined), uppercasing video/audio codec names with the aliasing
corrections H264→AVC and H265→HEVC applied to the video field, and
formatting as a fixed three-field string whose fields are separated by
"<br>"; for the given backend the result is
"Input: MPEGTS<br>Video: AVC<br>Audio: AAC" with retryOccurred false. -/
theorem probe_summary_normalization :
    get_stream_info_ffprobe (fun _ => .ok ⟨"mpegts", some "h264", some "aac"⟩)
      = { summary := "Input: MPEGTS<br>Video: AVC<br>Audio: AAC",
          retryOccurred := false, attemptsMade := 1, sleepsTaken := 0 }
    ∧ buildInfoString ⟨"mov,mp4,m4a", some "h265", some "mp3"⟩
      = "Input: MOV, MP4, M4A<br>Video: HEVC<br>Audio: MP3" := by decide

/-- C1: whenever the playing signal does not arrive within the
15-second deadline, measure_tune_time_with_vlc returns a failure —
never a success — whose status is "Stream Error" if an error signal
was observed during the wait and "Timed out" otherwise. -/
theorem tune_deadline_expiry_is_failure (env : TuneEnv) (takeThumbnail : Bool)
    (thumbPath : String)
    (h : ∀ t, env.playingAt = some t → REQUEST_TIMEOUT_MS < t) :
    (measure_tune_time_with_vlc env takeThumbnail thumbPath).result
      = some (.failure (if errorObserved env then "Stream Error" else "Timed out"))
    ∧ ∀ e th, (measure_tune_time_with_vlc env takeThumbnail thumbPath).result
        ≠ some (.success e th) := by
  have hw : waitPlayingResult env = none := by
    cases hp : env.playingAt with
    | none => simp [waitPlayingResult, hp]
    | some t =>
        have ht := h t hp
        simp only [waitPlayingResult, hp]
        rw [if_neg (by omega)]
  refine ⟨by simp [measure_tune_time_with_vlc, hw], ?_⟩
  intro e th
  simp [measure_tune_time_with_vlc, hw]

/-- Witness for C1: no playing signal ever fires, an error signal
fires at +3 s, so the outcome is the "Stream Error" failure. -/
theorem tune_deadline_expiry_is_failure_witness :
    (measure_tune_time_with_vlc ⟨none, some 3000, fun _ => 0, false⟩ false "p").result
      = some (.failure "Stream Error") := by
  have h := (tune_deadline_expiry_is_failure ⟨none, some 3000, fun _ => 0, false⟩ false "p"
      (fun t ht => Option.noConfusion ht)).1
  rw [show errorObserved ⟨none, some 3000, fun _ => 0, false⟩ = true from by decide] at h
  simpa using h

/-- The environment of the §8 scenario behind C2: the playing signal
arrives at +0.8 s and the polled playback position first exceeds 200 ms
at +0.85 s. -/
def scenarioEnv : TuneEnv :=
  { playingAt := some 800, errorAt := none,
    posAt := fun s => if s < 850 then 0 else 300, snapshotRaises := false }

/-- Counterexample to C2 as stated: in the §8 scenario the recorded
elapsed time is 0.8 s (the mark at which playing_event.wait returned,
taken on line 291 before the stabilization loop), the stabilization
loop exits at 0.85 s — the first poll at which the observed position
exceeds 200 ms — and 0.8 s is strictly below it, so the recorded
elapsed is neither ≥ that time nor approximately 0.85 s. -/
theorem tune_elapsed_counterexample :
    (measure_tune_time_with_vlc scenarioEnv false "p").result = some (.success 800 none)
    ∧ stabilizeEnd scenarioEnv 800 = 850
    ∧ ¬(850 ≤ 800) := by decide

/-- The stabilization loop never exits before the mark it started at. -/
theorem stabilizeGo_start_le (pos : Nat → Int) (start : Nat) :
    ∀ fuel s, s ≤ stabilizeGo pos start s fuel := by
  intro fuel
  induction fuel with
  | zero => intro s; simp [stabilizeGo]
  | succ n ih =>
      intro s
      simp only [stabilizeGo]
      by_cases h1 : MIN_PLAYBACK_TIME_MS ≤ pos s
      · simp [h1]
      · rw [if_neg h1]
        by_cases h2 : 2000 < s + 50 - start
        · rw [if_pos h2]; omega
        · rw [if_neg h2]
          exact le_trans (by omega) (ih (s + 50))

/-- C2 amended: for every successful measurement the recorded elapsed
time equals the mark at which the playing signal arrived, which is at
most (not at least) the mark at which the post-signal stabilization
wait — which polls the position at 50 ms intervals under a 2-second
secondary ceiling — completes; the stabilization wait runs after the
end mark is taken and never extends the recorded elapsed time, so in
the §8 scenario the recorded elapsed is approximately 0.8 s, not
0.85 s. -/
theorem tune_elapsed_equals_signal_time (env : TuneEnv) (takeThumbnail : Bool)
    (thumbPath : String) (t : Nat)
    (hp : env.playingAt = some t) (hd : t ≤ REQUEST_TIMEOUT_MS)
    (hs : takeThumbnail = false ∨ env.snapshotRaises = false) :
    (measure_tune_time_with_vlc env takeThumbnail thumbPath).result
      = some (.success t (if takeThumbnail then some thumbPath else none))
    ∧ t ≤ stabilizeEnd env t := by
  have hw : waitPlayingResult env = some t := by
    simp only [waitPlayingResult, hp]
    rw [if_pos hd]
  constructor
  · rcases htt : takeThumbnail with _ | _
    · simp [measure_tune_time_with_vlc, hw]
    · rcases hs with hs | hs
      · exact absurd htt (by simp [hs])
      · simp [measure_tune_time_with_vlc, hw, hs]
  · exact stabilizeGo_start_le env.posAt t _ t

/-- Witness for the amended C2, at the §8 scenario environment. -/
theorem tune_elapsed_equals_signal_time_witness :
    (measure_tune_time_with_vlc scenarioEnv false "p").result = some (.success 800 none)
    ∧ 800 ≤ stabilizeEnd scenarioEnv 800 :=
  tune_elapsed_equals_signal_time scenarioEnv false "p" 800 rfl (by decide) (Or.inl rfl)

/-- Counterexample to C8 as stated: on a successful measurement the
call stops the player but never clears its media (set_media(None) runs
only on the failure path), and when the snapshot call raises, the
exception escapes before player.stop() runs at all. -/
theorem player_cleanup_counterexample :
    ((measure_tune_time_with_vlc ⟨some 100, none, fun _ => 300, false⟩ false "p").trace
        = [.setMedia, .play, .stop]
      ∧ PlayerAction.clearMedia ∉
          (measure_tune_time_with_vlc ⟨some 100, none, fun _ => 300, false⟩ false "p").trace)
    ∧ ((measure_tune_time_with_vlc ⟨some 100, none, fun _ => 300, true⟩ true "p").result = none
      ∧ PlayerAction.stop ∉
          (measure_tune_time_with_vlc ⟨some 100, none, fun _ => 300, true⟩ true "p").trace) := by
  decide

/-- C8 amended: every call that returns (rather than letting a player
exception escape) stops the player; the media is cleared exactly on
the failure path, not on the success path; and the only way an
exception escapes is the snapshot call raising while thumbnails are
enabled, in which case the player is left unstopped (the caller's
finally releases the handle instead). -/
theorem player_cleanup_policy (env : TuneEnv) (takeThumbnail : Bool) (thumbPath : String) :
    ((measure_tune_time_with_vlc env takeThumbnail thumbPath).result.isSome = true →
        PlayerAction.stop ∈ (measure_tune_time_with_vlc env takeThumbnail thumbPath).trace)
    ∧ (waitPlayingResult env = none →
        (measure_tune_time_with_vlc env takeThumbnail thumbPath).trace
          = [.setMedia, .play, .clearMedia, .stop])
    ∧ ((∃ e th, (measure_tune_time_with_vlc env takeThumbnail thumbPath).result
          = some (.success e th)) →
        PlayerAction.clearMedia ∉ (measure_tune_time_with_vlc env takeThumbnail thumbPath).trace)
    ∧ ((measure_tune_time_with_vlc env takeThumbnail thumbPath).result = none →
        PlayerAction.stop ∉ (measure_tune_time_with_vlc env takeThumbnail thumbPath).trace
        ∧ takeThumbnail = true ∧ env.snapshotRaises = true) := by
  rcases hw : waitPlayingResult env with _ | t <;>
    rcases htt : takeThumbnail with _ | _ <;>
      rcases hsr : env.snapshotRaises with _ | _ <;>
        simp [measure_tune_time_with_vlc, hw, htt, hsr]

/-- Witness for the amended C8, at a timed-out environment. -/
theorem player_cleanup_policy_witness :
    (measure_tune_time_with_vlc ⟨none, none, fun _ => 0, false⟩ true "q").trace
      = [.setMedia, .play, .clearMedia, .stop] :=
  (player_cleanup_policy ⟨none, none, fun _ => 0, false⟩ true "q").2.1 rfl

/-- C5: the log-correlation query returns exactly the buffered lines
whose arrival timestamp lies in the inclusive window and whose
lowercased text contains one of the fixed keywords; a line appended at
T containing "ERROR" is returned for [T-1, T+1] and not for
[T+2, T+5]; a line without any keyword is never returned; and since
the query is a pure function of the buffer and the window, re-querying
an unchanged buffer yields identical results. -/
theorem log_correlation_query :
    (∀ (entries : List (Rat × String)) (s e : Rat) (l : String),
        l ∈ correlateLogs entries s e ↔
          ∃ t : Rat, (t, l) ∈ entries ∧ s ≤ t ∧ t ≤ e ∧ lineMatches l = true)
    ∧ (∀ T : Rat,
        correlateLogs [(T, "FATAL ERROR in stream")] (T - 1) (T + 1)
          = ["FATAL ERROR in stream"])
    ∧ (∀ T : Rat, correlateLogs [(T, "FATAL ERROR in stream")] (T + 2) (T + 5) = [])
    ∧ (∀ (entries : List (Rat × String)) (s e : Rat) (l : String),
        lineMatches l = false → l ∉ correlateLogs entries s e)
    ∧ (∀ (entries : List (Rat × String)) (s e : Rat),
        correlateLogs entries s e = correlateLogs entries s e) := by
  refine ⟨?_, ?_, ?_, ?_, fun _ _ _ => rfl⟩
  · intro entries s e l
    simp only [correlateLogs, List.mem_map, List.mem_filter]
    constructor
    · rintro ⟨⟨t, l2⟩, ⟨hm, hcond⟩, rfl⟩
      simp only [Bool.and_eq_true, decide_eq_true_eq] at hcond
      exact ⟨t, hm, hcond.1.1, hcond.1.2, hcond.2⟩
    · rintro ⟨t, hm, h1, h2, h3⟩
      exact ⟨(t, l), ⟨hm, by simp [h1, h2, h3]⟩, rfl⟩
  · intro T
    have h1 : decide ((T : Rat) - 1 ≤ T) = true := decide_eq_true (by linarith)
    have h2 : decide ((T : Rat) ≤ T + 1) = true := decide_eq_true (by linarith)
    have h3 : lineMatches "FATAL ERROR in stream" = true := by decide
    simp [correlateLogs, h1, h2, h3]
  · intro T
    have h1 : decide ((T : Rat) + 2 ≤ T) = false := decide_eq_false (by linarith)
    simp [correlateLogs, h1]
  · intro entries s e l hl hmem
    simp only [correlateLogs, List.mem_map, List.mem_filter] at hmem
    obtain ⟨⟨t, l2⟩, ⟨_, hcond⟩, h2⟩ := hmem
    simp only at h2
    subst h2
    simp only [Bool.and_eq_true] at hcond
    rw [hl] at hcond
    exact absurd hcond.2 (by simp)

/-- Witness for C5: a keyword line at time 0 is returned for the
window [-1, 1]. -/
theorem log_correlation_query_witness :
    correlateLogs [((0 : Rat), "FATAL ERROR in stream")] (0 - 1) (0 + 1)
      = ["FATAL ERROR in stream"] :=
  log_correlation_query.2.1 0

/-- Counterexample to C6 as stated: the decorative marker the source
strips is the superscript ᴿᴬᵂ, so a channel named with the claim's
literal suffix "⚑RAW" is not collapsed to "NPO1" by either variant of
the row-key computation. -/
theorem base_name_glyph_counterexample :
    dispBaseName "NPO1 ⚑RAW" ≠ "NPO1" ∧ iptvBaseName "NPO1 ⚑RAW" ≠ "NPO1" := by
  decide

/-- Membership after a dict assignment: every entry either was already
present or carries the assigned key. -/
theorem dictInsert_mem (m : List (String × ResultRow)) (k : String) (v : ResultRow)
    (p : String × ResultRow) (hp : p ∈ dictInsert m k v) : p ∈ m ∨ p.1 = k := by
  unfold dictInsert at hp
  by_cases hany : m.any (fun q => q.1 == k) = true
  · rw [if_pos hany] at hp
    obtain ⟨q, hq, hq2⟩ := List.mem_map.mp hp
    by_cases hqk : (q.1 == k) = true
    · rw [if_pos hqk] at hq2
      right
      rw [← hq2]
    · rw [if_neg hqk] at hq2
      left
      rwa [← hq2]
  · rw [if_neg hany] at hp
    rcases List.mem_append.mp hp with h | h
    · exact Or.inl h
    · right
      rw [List.mem_singleton.mp h]

/-- Every key of the assembled results dict is the stripped base name
of one of the tested channels. -/
theorem sessionGo_keys (tm pe dm : Bool) (entries : List (Rat × String)) :
    ∀ (channels : List ChannelRun) (acc rows : List (String × ResultRow)),
      sessionGo tm pe dm entries channels acc = .ok rows →
      ∀ p ∈ rows, (∃ ch ∈ channels, p.1 = dispBaseName ch.name) ∨ p ∈ acc := by
  intro channels
  induction channels with
  | nil =>
      intro acc rows h p hp
      simp only [sessionGo, Except.ok.injEq] at h
      subst h
      exact Or.inr hp
  | cons ch rest ih =>
      intro acc rows h p hp
      simp only [sessionGo] at h
      cases hm : (measure_tune_time_with_vlc ch.env tm ch.thumbPath).result with
      | none => rw [hm] at h; cases h
      | some outcome =>
          rw [hm] at h
          rcases ih _ rows h p hp with ⟨ch2, hch2, hk⟩ | hacc
          · exact Or.inl ⟨ch2, List.mem_cons_of_mem _ hch2, hk⟩
          · rcases dictInsert_mem _ _ _ _ hacc with hold | hkey
            · exact Or.inr hold
            · exact Or.inl ⟨ch, List.mem_cons_self _ _, hkey⟩

/-- The row stored for a channel whose measurement returned normally
(the default is never consulted on that path). -/
def rowOf (tm pe dm : Bool) (entries : List (Rat × String)) (ch : ChannelRun) : ResultRow :=
  rowForChannel pe dm entries ch
    ((measure_tune_time_with_vlc ch.env tm ch.thumbPath).result.getD (.failure ""))

/-- The full results dict of an exception-free session over channels
with pairwise distinct base names: one entry per channel, in input
order, keyed by the stripped base name. -/
def sessionRows (tm pe dm : Bool) (entries : List (Rat × String))
    (channels : List ChannelRun) : List (String × ResultRow) :=
  channels.map (fun ch => (dispBaseName ch.name, rowOf tm pe dm entries ch))

/-- Running the channel loop when no measurement lets an exception
escape and base names are pairwise distinct: it completes and appends
one row per channel to the accumulator. -/
theorem sessionGo_ok (tm pe dm : Bool) (entries : List (Rat × String)) :
    ∀ (channels : List ChannelRun) (acc : List (String × ResultRow)),
      (∀ ch ∈ channels, (measure_tune_time_with_vlc ch.env tm ch.thumbPath).result ≠ none) →
      (∀ ch ∈ channels, acc.any (fun p => p.1 == dispBaseName ch.name) = false) →
      channels.Pairwise (fun a b => dispBaseName a.name ≠ dispBaseName b.name) →
      sessionGo tm pe dm entries channels acc
        = .ok (acc ++ sessionRows tm pe dm entries channels) := by
  intro channels
  induction channels with
  | nil =>
      intro acc _ _ _
      simp [sessionGo, sessionRows]
  | cons ch rest ih =>
      intro acc hne hfresh hpw
      have hne0 := hne ch (List.mem_cons_self _ _)
      cases hm : (measure_tune_time_with_vlc ch.env tm ch.thumbPath).result with
      | none => exact absurd hm hne0
      | some outcome =>
          have hrow : rowForChannel pe dm entries ch outcome = rowOf tm pe dm entries ch := by
            unfold rowOf
            rw [hm]
            rfl
      -- dict assignment with a fresh key is an append
          have hfresh0 := hfresh ch (List.mem_cons_self _ _)
          have hins : dictInsert acc (dispBaseName ch.name)
                (rowForChannel pe dm entries ch outcome)
              = acc ++ [(dispBaseName ch.name, rowOf tm pe dm entries ch)] := by
            unfold dictInsert
            rw [hrow, hfresh0]
            simp
          have hne2 : ∀ ch2 ∈ rest,
              (measure_tune_time_with_vlc ch2.env tm ch2.thumbPath).result ≠ none :=
            fun ch2 hm2 => hne ch2 (List.mem_cons_of_mem _ hm2)
          have hfr2 : ∀ ch2 ∈ rest,
              (acc ++ [(dispBaseName ch.name, rowOf tm pe dm entries ch)]).any
                (fun p => p.1 == dispBaseName ch2.name) = false := by
            intro ch2 hm2
            have hk : dispBaseName ch.name ≠ dispBaseName ch2.name :=
              (List.pairwise_cons.mp hpw).1 ch2 hm2
            have ha := hfresh ch2 (List.mem_cons_of_mem _ hm2)
            simp [List.any_append, ha, hk]
          simp only [sessionGo, hm]
          rw [hins, ih _ hne2 hfr2 (List.pairwise_cons.mp hpw).2]
          simp [sessionRows]

/-- Looking a channel up in the assembled rows, under pairwise
distinct base names, returns exactly its own row. -/
theorem lookup_sessionRows (tm pe dm : Bool) (entries : List (Rat × String)) :
    ∀ (channels : List ChannelRun) (ch : ChannelRun), ch ∈ channels →
      channels.Pairwise (fun a b => dispBaseName a.name ≠ dispBaseName b.name) →
      lookupRow (sessionRows tm pe dm entries channels) (dispBaseName ch.name)
        = some (rowOf tm pe dm entries ch) := by
  intro channels
  induction channels with
  | nil => intro ch h; cases h
  | cons c0 rest ih =>
      intro ch hch hpw
      rcases List.mem_cons.mp hch with rfl | hmem
      · simp [lookupRow, sessionRows, List.find?]
      · have hne2 : dispBaseName c0.name ≠ dispBaseName ch.name :=
          (List.pairwise_cons.mp hpw).1 ch hmem
        have hrec := ih ch hmem (List.pairwise_cons.mp hpw).2
        simp only [sessionRows, List.map_cons] at hrec ⊢
        simp only [lookupRow, List.find?] at hrec ⊢
        rw [show (dispBaseName c0.name == dispBaseName ch.name) = false by simp [hne2]]
        exact hrec

instance {ε α : Type} [DecidableEq ε] [DecidableEq α] : DecidableEq (Except ε α) := fun x y =>
  match x, y with
  | .ok a, .ok b =>
      if h : a = b then .isTrue (congrArg Except.ok h)
      else .isFalse (fun he => h (Except.ok.inj he))
  | .error a, .error b =>
      if h : a = b then .isTrue (congrArg Except.error h)
      else .isFalse (fun he => h (Except.error.inj he))
  | .ok _, .error _ => .isFalse (fun he => Except.noConfusion he)
  | .error _, .ok _ => .isFalse (fun he => Except.noConfusion he)

/-- A concrete channel whose tuning times out and whose probe backend
always fails, used to instantiate the session-level theorems. -/
def demoChannel : ChannelRun :=
  { name := "NPO1 ᴿᴬᵂ"
  , env := { playingAt := none, errorAt := none, posAt := fun _ => 0, snapshotRaises := false }
  , thumbPath := "thumbnails/NPO1.png"
  , probeBackend := fun _ => .error "probe down"
  , testStart := 0
  , testEnd := 10 }

/-- The row the session stores for demoChannel with thumbnails, probe
and debug mode all off. -/
def demoRow : ResultRow :=
  { time := none, thumb := none, info := "Timed out<br>N/A",
    info_retry := false, debug := "VLC: Timed out" }

example :
    run_test_session [demoChannel] false false false [] = .ok [("NPO1", demoRow)] := by decide

/-- C6 amended: the decorative variant marker stripped from channel
names is the superscript suffix ᴿᴬᵂ — not the claim's literal "⚑RAW"
glyphs — so "NPO1 ᴿᴬᵂ" in one profile and "NPO1" in another collapse
to the same row key "NPO1" under both variants of the computation, and
every key of the assembled result rows is the stripped base name of
one of the tested channels. -/
theorem base_name_alignment :
    dispBaseName "NPO1 ᴿᴬᵂ" = "NPO1"
    ∧ iptvBaseName "NPO1 ᴿᴬᵂ" = "NPO1"
    ∧ dispBaseName "NPO1" = "NPO1"
    ∧ (∀ (channels : List ChannelRun) (tm pe dm : Bool) (entries : List (Rat × String))
        (rows : List (String × ResultRow)),
        run_test_session channels tm pe dm entries = .ok rows →
        ∀ p ∈ rows, ∃ ch ∈ channels, p.1 = dispBaseName ch.name) := by
  refine ⟨by decide, by decide, by decide, ?_⟩
  intro channels tm pe dm entries rows h p hp
  rcases sessionGo_keys tm pe dm entries channels [] rows h p hp with h1 | h1
  · exact h1
  · exact absurd h1 (List.not_mem_nil _)

/-- Witness for the amended C6: in a one-channel session for
"NPO1 ᴿᴬᵂ" the stored row key is the stripped base name. -/
theorem base_name_alignment_witness :
    ("NPO1", demoRow).1 = dispBaseName demoChannel.name := by
  obtain ⟨ch, hch, he⟩ :=
    base_name_alignment.2.2.2 [demoChannel] false false false [] [("NPO1", demoRow)]
      (by decide) ("NPO1", demoRow) (List.mem_singleton.mpr rfl)
  rw [List.mem_singleton.mp hch] at he
  exact he

/-- Counterexample to C7 as stated: when an exception escapes a profile
iteration, the loop is aborted and the originally active profile is
never restored — the restoration is straight-line code after the loop,
not a scoped-acquisition pattern covering every exit path. -/
theorem profile_restore_counterexample :
    mainProfileSequence [.runRaises] (some "uuid")
      = { completed := false, restores := 0 } := by decide

/-- The profile loop completes iff no iteration raises. -/
theorem profileLoopGo_spec (l : List ProfileStep) :
    (ProfileStep.runRaises ∉ l → profileLoopGo l = .ok ())
    ∧ (ProfileStep.runRaises ∈ l → profileLoopGo l = .error ()) := by
  induction l with
  | nil =>
      exact ⟨fun _ => rfl, fun h => absurd h (List.not_mem_nil _)⟩
  | cons s rest ih =>
      cases s with
      | switchFail =>
          refine ⟨fun h => ?_, fun h => ?_⟩
          · exact ih.1 (fun hm => h (List.mem_cons_of_mem _ hm))
          · refine ih.2 ?_
            rcases List.mem_cons.mp h with h1 | h1
            · exact absurd h1 (by simp)
            · exact h1
      | runOk =>
          refine ⟨fun h => ?_, fun h => ?_⟩
          · exact ih.1 (fun hm => h (List.mem_cons_of_mem _ hm))
          · refine ih.2 ?_
            rcases List.mem_cons.mp h with h1 | h1
            · exact absurd h1 (by simp)
            · exact h1
      | runRaises =>
          exact ⟨fun h => absurd (List.mem_cons_self _ _) h, fun _ => rfl⟩

/-- C7 amended: the orchestrator restores the originally active
profile exactly once, after the full multi-profile sequence, on every
normal completion of the profile loop — including runs skipped because
the profile switch failed — provided the saved original profile id is
present; but when an exception aborts the loop early, the restoration
code is never reached and the original profile is not restored. -/
theorem profile_restore_policy (steps : List ProfileStep) (orig : Option String) :
    (ProfileStep.runRaises ∉ steps →
        mainProfileSequence steps orig
          = { completed := true, restores := if orig.isSome then 1 else 0 })
    ∧ (ProfileStep.runRaises ∈ steps →
        mainProfileSequence steps orig = { completed := false, restores := 0 }) := by
  constructor
  · intro h
    unfold mainProfileSequence
    rw [(profileLoopGo_spec steps).1 h]
  · intro h
    unfold mainProfileSequence
    rw [(profileLoopGo_spec steps).2 h]

/-- Witness for the amended C7: a sequence with one skipped run and one
completed run restores the original profile exactly once. -/
theorem profile_restore_policy_witness :
    mainProfileSequence [.switchFail, .runOk] (some "uuid")
      = { completed := true, restores := 1 } := by
  have h := (profile_restore_policy [.switchFail, .runOk] (some "uuid")).1 (by decide)
  simpa using h

/-- C9: per-channel failures never abort the channel loop — when no
call lets a player exception escape, the session completes with
exactly one row per tested channel (base names pairwise distinct),
each retrievable under its base-name key; a failed channel's row has a
null time together with the human-readable cause string in its info
field; and the probe result is folded into the row — whenever probing
is enabled, the stored retry flag comes from the probe run regardless
of whether playback succeeded (the probe runs after its 1-second
settle delay even for failed channels). -/
theorem session_per_channel_isolation
    (channels : List ChannelRun) (tm pe dm : Bool) (entries : List (Rat × String))
    (hne : ∀ ch ∈ channels, (measure_tune_time_with_vlc ch.env tm ch.thumbPath).result ≠ none)
    (hdist : channels.Pairwise (fun a b => dispBaseName a.name ≠ dispBaseName b.name)) :
    run_test_session channels tm pe dm entries = .ok (sessionRows tm pe dm entries channels)
    ∧ (sessionRows tm pe dm entries channels).length = channels.length
    ∧ ∀ ch ∈ channels,
        lookupRow (sessionRows tm pe dm entries channels) (dispBaseName ch.name)
          = some (rowOf tm pe dm entries ch)
        ∧ (pe = true → (rowOf tm pe dm entries ch).info_retry
            = (get_stream_info_ffprobe ch.probeBackend).retryOccurred)
        ∧ ∀ s, (measure_tune_time_with_vlc ch.env tm ch.thumbPath).result
              = some (.failure s) →
            (rowOf tm pe dm entries ch).time = none
            ∧ (rowOf tm pe dm entries ch).thumb = none
            ∧ (rowOf tm pe dm entries ch).info
                = s ++ "<br>" ++ (if pe then (get_stream_info_ffprobe ch.probeBackend).summary
                    else "N/A") := by
  refine ⟨?_, by simp [sessionRows], ?_⟩
  · have h := sessionGo_ok tm pe dm entries channels [] hne (fun ch _ => rfl) hdist
    simpa [run_test_session] using h
  · intro ch hch
    refine ⟨lookup_sessionRows tm pe dm entries channels ch hch hdist, ?_, ?_⟩
    · intro hpe
      simp [rowOf, rowForChannel, retryFor, hpe]
    · intro s hs
      unfold rowOf
      rw [hs]
      simp [rowForChannel, tuneTimeOf, tuneSecondOf, pyStr, streamInfoFor, Option.getD]

/-- Witness for C9: the one-channel demo session (whose channel both
times out and has a failing probe backend) completes normally. -/
theorem session_per_channel_isolation_witness :
    run_test_session [demoChannel] false false false []
      = .ok (sessionRows false false false [] [demoChannel]) :=
  (session_per_channel_isolation [demoChannel] false false false []
    (by decide) (by decide)).1

/-- C10: on the failure path the second component of the returned pair
is the failure-cause string ("Stream Error" or "Timed out"), not a
thumbnail path; the stored row has thumb = none whenever time = none;
and the cause string is routed into the info string (prefixed to the
stream info) and into the VLC debug note. -/
theorem failure_second_component_routing :
    (∀ (env : TuneEnv) (tt : Bool) (p : String), waitPlayingResult env = none →
        (measure_tune_time_with_vlc env tt p).result
          = some (.failure (if errorObserved env then "Stream Error" else "Timed out")))
    ∧ (∀ s : String, tuneTimeOf (.failure s) = none ∧ tuneSecondOf (.failure s) = some s)
    ∧ (∀ (pe dm : Bool) (entries : List (Rat × String)) (ch : ChannelRun)
        (outcome : TuneOutcome),
        (rowForChannel pe dm entries ch outcome).time = none →
        (rowForChannel pe dm entries ch outcome).thumb = none)
    ∧ (∀ (pe dm : Bool) (entries : List (Rat × String)) (ch : ChannelRun) (s : String),
        (rowForChannel pe dm entries ch (.failure s)).info
          = s ++ "<br>" ++ streamInfoFor pe ch
        ∧ (rowForChannel pe dm entries ch (.failure s)).debug
            = joinBr (debugMessagesFor pe dm entries ch (.failure s))
        ∧ ("VLC: " ++ s) ∈ debugMessagesFor pe dm entries ch (.failure s)) := by
  refine ⟨?_, fun s => ⟨rfl, rfl⟩, ?_, ?_⟩
  · intro env tt p hw
    simp [measure_tune_time_with_vlc, hw]
  · intro pe dm entries ch outcome h
    cases outcome with
    | success e th => simp [rowForChannel, tuneTimeOf] at h
    | failure s => simp [rowForChannel, tuneTimeOf]
  · intro pe dm entries ch s
    refine ⟨by simp [rowForChannel, tuneTimeOf, tuneSecondOf, pyStr], rfl, ?_⟩
    unfold debugMessagesFor
    simp only [tuneTimeOf, Option.isNone_none, if_true]
    split <;> (try split) <;> simp [tuneSecondOf, pyStr]

/-- Witness for C10: the stored demo row for a timed-out channel has a
null thumbnail. -/
theorem failure_second_component_routing_witness :
    (rowForChannel false false [] demoChannel (.failure "Timed out")).thumb = none :=
  failure_second_component_routing.2.2.1 false false [] demoChannel
    (.failure "Timed out") (by decide)
